import Mathlib

/-!
Verification of the indexing/search orchestration layer of the
jamaica-crisis-map backend (src/main.py) against its specification.

The embedding is shallow: the orchestrator bodies of `index_tile` and
`search_images` are translated into pure Lean functions.  External
collaborators (Firestore, ChromaDB, the image download, the CLIP model)
are modelled by an environment record holding the outcome of each call
the orchestrator makes during the request, and the orchestrator returns,
next to its HTTP-level response, the trace of external calls it issued.
Geographic coordinates and embedding distances are modelled as rationals.
-/

namespace CrisisMap

/- Configuration constants from `class Config` in main.py. -/
namespace Config

def MAX_RESULTS : ℤ := 100

def DEFAULT_K : ℤ := 10

def ROI_MULTIPLIER : ℤ := 3

def MIN_LAT : ℚ := -90

def MAX_LAT : ℚ := 90

def MIN_LON : ℚ := -180

def MAX_LON : ℚ := 180

def ALLOWED_DOMAINS : List String :=
  ["storms.ngs.noaa.gov", "stormscdn.ngs.noaa.gov", "noaa.gov",
   "storage.googleapis.com", "picsum.photos"]

end Config

/-- A JSON-ish scalar value as stored in a tile metadata dict. -/
inductive Value where
  | str (s : String)
  | num (q : ℚ)
  | null
deriving DecidableEq, Repr

/-- True when `pat` occurs as a substring of `s` (Python `pat in s`). -/
def strContains (s pat : String) : Bool := decide (pat.data <:+: s.data)

/-- True when `s` starts with `pat` (Python `s.startswith(pat)`). -/
def strStartsWith (s pat : String) : Bool := decide (pat.data <+: s.data)

/-- A Python dict with string keys, as an insertion-ordered association list. -/
abbrev Dict := List (String × Value)

/-- Python dict assignment `d[k] = v`: update in place when the key exists,
append otherwise. -/
def dictSet (d : Dict) (k : String) (v : Value) : Dict :=
  if d.any (fun p => p.1 == k) then
    d.map (fun p => if p.1 == k then (k, v) else p)
  else
    d ++ [(k, v)]

/-- Python dict-literal spread `{**d, **extra}`: each binding of `extra` is
assigned into `d` in order, so later bindings win. -/
def dictMerge (d : Dict) (extra : Dict) : Dict :=
  extra.foldl (fun acc p => dictSet acc p.1 p.2) d

/-- Python dict lookup `d.get(k)`. -/
def dictGet (d : Dict) (k : String) : Option Value :=
  (d.find? (fun p => p.1 == k)).map Prod.snd

/-- Geographic bounds `{west, south, east, north}` in degrees. -/
structure Bounds where
  west : ℚ
  south : ℚ
  east : ℚ
  north : ℚ
deriving DecidableEq, Repr

/-- main.py `validate_bounds` (lines 163-185).  The missing-key check does
not arise here because `Bounds` is a typed record. -/
def validate_bounds (b : Bounds) : Except String Unit :=
  if ¬ (Config.MIN_LON ≤ b.west ∧ b.west ≤ Config.MAX_LON) then
    .error "Invalid west longitude"
  else if ¬ (Config.MIN_LON ≤ b.east ∧ b.east ≤ Config.MAX_LON) then
    .error "Invalid east longitude"
  else if ¬ (Config.MIN_LAT ≤ b.south ∧ b.south ≤ Config.MAX_LAT) then
    .error "Invalid south latitude"
  else if ¬ (Config.MIN_LAT ≤ b.north ∧ b.north ≤ Config.MAX_LAT) then
    .error "Invalid north latitude"
  else if b.west ≥ b.east then
    .error "west must be less than east"
  else if b.south ≥ b.north then
    .error "south must be less than north"
  else
    .ok ()

/-- main.py `validate_url` (lines 187-195): HTTP(S) scheme and substring
match against the domain allow-list. -/
def validate_url (url : String) : Except String Unit :=
  if ¬ (strStartsWith url "http://" = true ∨ strStartsWith url "https://" = true) then
    .error "URL must start with http:// or https://"
  else if ¬ (Config.ALLOWED_DOMAINS.any (fun d => strContains url d)) = true then
    .error "URL domain not allowed"
  else
    .ok ()

/-- main.py `validate_image_id` (lines 198-205). -/
def validate_image_id (image_id : String) : Except String Unit :=
  if image_id = "" ∨ image_id.length > 200 then
    .error "image_id must be 1-200 characters"
  else if ['/', '\\', '\x00', '\n', '\r'].any (fun c => image_id.data.contains c) then
    .error "image_id contains invalid characters"
  else
    .ok ()

/-- The value Python `int(k)` produced for the `k` request field:
either an integer or a conversion failure. -/
inductive KValue where
  | intVal (n : ℤ)
  | notInt
deriving DecidableEq, Repr

/-- main.py `validate_k` (lines 208-220). -/
def validate_k : KValue → Except String ℤ
  | .notInt => .error "k must be an integer"
  | .intVal k =>
    if k < 1 then .error "k must be at least 1"
    else if k > Config.MAX_RESULTS then .error "k cannot exceed 100"
    else .ok k

/-- An `/index_tile` request body after JSON parsing; the three required
fields are present (the missing-field check of lines 481-484 is a JSON-shape
concern outside this typed model). -/
structure IndexRequest where
  image_id : String
  tile_url : String
  thumb_url : Option String
  bounds : Bounds
  timestamp : Option String
  extra_metadata : Dict
deriving DecidableEq, Repr

/-- Outcomes of the external calls `index_tile` makes during one request:
each field is the result the corresponding collaborator call would return,
`.error` meaning the call raises.  `dupQuery` is the Firestore url_hash
equality query of `check_duplicate_url` (its payload: the id of a matching
document, if any). -/
structure IndexEnv where
  dupQuery : Except String (Option String)
  download : Except String Unit
  firestoreSet : Except String Unit
  chromaUpsert : Except String Unit
  rollbackFsDelete : Except String Unit
  rollbackChromaDelete : Except String Unit
  indexed_at : String

/-- One external call issued by the indexing orchestrator. -/
inductive Action where
  | fsDupQuery
  | downloadImage (url : String)
  | encodeImage
  | fsSet (id : String) (meta : Dict)
  | chromaUpsert (id : String)
  | fsDelete (id : String)
  | chromaDelete (id : String)
deriving DecidableEq, Repr

/-- The HTTP-level outcome of an `/index_tile` request. -/
inductive IndexResponse where
  | validationError (msg : String)
  | duplicateWarning (existing_id : String)
  | indexed (image_id : String) (center_lat center_lon : ℚ)
  | serverError (msg : String)
deriving DecidableEq, Repr

/-- HTTP status code attached to each indexing outcome in main.py
(400 via the ValidationError handler, 200/201/500 returned inline). -/
def indexStatus : IndexResponse → Nat
  | .validationError _ => 400
  | .duplicateWarning _ => 200
  | .indexed _ _ _ => 201
  | .serverError _ => 500

/-- main.py `check_duplicate_url` (lines 294-307): any exception from the
Firestore query is caught and logged, and the function returns None. -/
def check_duplicate_url (dupQuery : Except String (Option String)) : Option String :=
  match dupQuery with
  | .ok r => r
  | .error _ => none

/-- main.py `rollback_index` (lines 356-370): the Firestore delete and the
Chroma delete are each wrapped in their own try/except, so a failure of
either is logged and swallowed, both deletes are always attempted, and no
exception escapes.  The value is the trace of the two delete calls; the
outcome arguments are consumed only to mirror the two except blocks. -/
def rollback_index (image_id : String)
    (fsDel chromaDel : Except String Unit) : List Action :=
  (match fsDel with
   | .ok _ => [Action.fsDelete image_id]
   | .error _ => [Action.fsDelete image_id]) ++
  (match chromaDel with
   | .ok _ => [Action.chromaDelete image_id]
   | .error _ => [Action.chromaDelete image_id])

/-- The metadata dict assembled in main.py lines 520-534: the twelve
derived/reserved bindings written in source order, then the caller's
`extra_metadata` spread into the literal (`**extra_metadata`). -/
def assembleMeta (image_id tile_url : String) (thumb_url : Option String)
    (uh : String) (b : Bounds) (center_lat center_lon : ℚ)
    (timestamp : Option String) (indexed_at : String)
    (extra_metadata : Dict) : Dict :=
  dictMerge
    [("image_id", .str image_id),
     ("tile_url", .str tile_url),
     ("thumb_url", match thumb_url with | some t => .str t | none => .null),
     ("url_hash", .str uh),
     ("west", .num b.west),
     ("south", .num b.south),
     ("east", .num b.east),
     ("north", .num b.north),
     ("center_lat", .num center_lat),
     ("center_lon", .num center_lon),
     ("timestamp", match timestamp with | some t => .str t | none => .null),
     ("indexed_at", .str indexed_at)]
    extra_metadata

/-- The input-validation phase of `index_tile` (lines 494-499), in source
order, short-circuiting on the first failure. -/
def validations (req : IndexRequest) : Except String Unit :=
  match validate_image_id req.image_id with
  | .error m => .error m
  | .ok _ =>
    match validate_url req.tile_url with
    | .error m => .error m
    | .ok _ =>
      match validate_bounds req.bounds with
      | .error m => .error m
      | .ok _ =>
        match req.thumb_url with
        | some t => validate_url t
        | none => .ok ()

/-- The post-deduplication phase of `index_tile` (lines 511-550): compute
the center, download and encode the image, assemble the record, perform the
dual write with `rollback_index` on failure, and re-raise the original
exception, which the outer handler turns into a 500 whose message embeds
that exception's text.  `uh` stands for the SHA-256-hexdigest-prefix
`url_hash` function, kept abstract since only its value is stored. -/
def index_main (req : IndexRequest) (uh : String → String)
    (download firestoreSet chromaUpsert rbFs rbCh : Except String Unit)
    (indexed_at : String) : IndexResponse × List Action :=
  let center_lat := (req.bounds.south + req.bounds.north) / 2
  let center_lon := (req.bounds.west + req.bounds.east) / 2
  match download with
  | .error m =>
      (.serverError ("Failed to index tile: " ++ m),
       [.fsDupQuery, .downloadImage req.tile_url])
  | .ok _ =>
    let meta := assembleMeta req.image_id req.tile_url req.thumb_url
      (uh req.tile_url) req.bounds center_lat center_lon
      req.timestamp indexed_at req.extra_metadata
    match firestoreSet with
    | .error m =>
        (.serverError ("Failed to index tile: " ++ m),
         [.fsDupQuery, .downloadImage req.tile_url, .encodeImage,
          .fsSet req.image_id meta] ++ rollback_index req.image_id rbFs rbCh)
    | .ok _ =>
      match chromaUpsert with
      | .error m =>
          (.serverError ("Failed to index tile: " ++ m),
           [.fsDupQuery, .downloadImage req.tile_url, .encodeImage,
            .fsSet req.image_id meta, .chromaUpsert req.image_id]
             ++ rollback_index req.image_id rbFs rbCh)
      | .ok _ =>
          (.indexed req.image_id center_lat center_lon,
           [.fsDupQuery, .downloadImage req.tile_url, .encodeImage,
            .fsSet req.image_id meta, .chromaUpsert req.image_id])

/-- main.py `index_tile` (lines 449-556): validation, duplicate-URL check
(lines 501-509), then the main indexing path. -/
def index_tile (req : IndexRequest) (env : IndexEnv)
    (uh : String → String) : IndexResponse × List Action :=
  match validations req with
  | .error m => (.validationError m, [])
  | .ok _ =>
    match check_duplicate_url env.dupQuery with
    | some ex =>
        if ex ≠ req.image_id then
          (.duplicateWarning ex, [.fsDupQuery])
        else
          index_main req uh env.download env.firestoreSet env.chromaUpsert
            env.rollbackFsDelete env.rollbackChromaDelete env.indexed_at
    | none =>
        index_main req uh env.download env.firestoreSet env.chromaUpsert
          env.rollbackFsDelete env.rollbackChromaDelete env.indexed_at

/-- One nearest-neighbor hit returned by the Chroma query: the metadata
dict fields `search_images` reads (each may be absent, as `meta.get` yields
None) together with the reported embedding distance. -/
structure ChromaHit where
  image_id : Option String
  tile_url : Option String
  thumb_url : Option String
  center_lat : Option ℚ
  center_lon : Option ℚ
  west : Option ℚ
  south : Option ℚ
  east : Option ℚ
  north : Option ℚ
  timestamp : Option String
  distance : ℚ
deriving DecidableEq, Repr

/-- One entry of the `results` list built in main.py lines 626-643 (the
nested `center`/`bounds` sub-dicts are flattened into fields). -/
structure SearchResult where
  image_id : Option String
  tile_url : Option String
  thumb_url : Option String
  center_lat : Option ℚ
  center_lon : Option ℚ
  west : Option ℚ
  south : Option ℚ
  east : Option ℚ
  north : Option ℚ
  timestamp : Option String
  distance : ℚ
  similarity : ℚ
deriving DecidableEq, Repr

/-- The result dict assembled from a surviving hit (lines 626-643),
with `similarity = 1 - distance`. -/
def mkResult (h : ChromaHit) : SearchResult :=
  { image_id := h.image_id, tile_url := h.tile_url, thumb_url := h.thumb_url,
    center_lat := h.center_lat, center_lon := h.center_lon,
    west := h.west, south := h.south, east := h.east, north := h.north,
    timestamp := h.timestamp,
    distance := h.distance, similarity := 1 - h.distance }

/-- The ROI admission test of lines 615-624: skip the hit when either
center coordinate is missing, otherwise require the inclusive box checks
on latitude then longitude. -/
def roiAdmits (roi : Bounds) (h : ChromaHit) : Bool :=
  match h.center_lat, h.center_lon with
  | some lat, some lon =>
      decide (roi.south ≤ lat) && decide (lat ≤ roi.north) &&
      decide (roi.west ≤ lon) && decide (lon ≤ roi.east)
  | _, _ => false

/-- Whether the loop keeps a hit: the ROI test applies only when an roi was
supplied (lines 614-624). -/
def hitAdmitted (roi : Option Bounds) (h : ChromaHit) : Bool :=
  match roi with
  | some r => roiAdmits r h
  | none => true

/-- The hit-collection loop of lines 612-647: walk the store's hits in
order, filter by ROI when present, append the assembled result, and break
as soon as `k` results are held.  `acc` is the number of results already
appended. -/
def collectHits (roi : Option Bounds) (k : Nat) : Nat → List ChromaHit → List SearchResult
  | _, [] => []
  | acc, h :: rest =>
    if hitAdmitted roi h then
      if k ≤ acc + 1 then [mkResult h]
      else mkResult h :: collectHits roi k (acc + 1) rest
    else
      collectHits roi k acc rest

/-- A `/search_images` request body after JSON parsing.  `k = none` models
an absent key (then `data.get` supplies `DEFAULT_K`); `roi = none` models
an absent or falsy roi. -/
structure SearchRequest where
  query : String
  k : Option KValue
  roi : Option Bounds
deriving DecidableEq, Repr

/-- Python `data.get("k", Config.DEFAULT_K)` at line 587. -/
def kWithDefault : Option KValue → KValue
  | none => .intVal Config.DEFAULT_K
  | some v => v

/-- The fetch-width computation of lines 598-599. -/
def fetch_count (k : ℤ) (roiPresent : Bool) : ℤ :=
  min (if roiPresent then k * Config.ROI_MULTIPLIER else k) Config.MAX_RESULTS

/-- What the vector store returns for this request's query embedding, in
ascending-distance order as Chroma reports it. -/
structure SearchEnv where
  queryResult : List ChromaHit
deriving DecidableEq, Repr

/-- The HTTP-level outcome of a `/search_images` request.  `ok` carries the
`query`, `results`, `count` and `requested` fields of the 200 body. -/
inductive SearchResponse where
  | validationError (msg : String)
  | ok (query : String) (results : List SearchResult) (count : Nat) (requested : ℤ)
deriving DecidableEq, Repr

/-- The post-validation phase of `search_images` (lines 594-656): compute
the fetch width, query the store, run the collection loop, and return the
200 body.  The second component records the `n_results` values requested
from the vector store. -/
def searchCore (q : String) (k : ℤ) (roi : Option Bounds)
    (env : SearchEnv) : SearchResponse × List ℤ :=
  let fc := fetch_count k roi.isSome
  let results := collectHits roi k.toNat 0 env.queryResult
  (.ok q results results.length k, [fc])

/-- Python `str.strip()` with no argument: remove leading and trailing
whitespace (line 579, `data.get("query", "").strip()`). -/
def pyStrip (s : String) : String :=
  ⟨((s.data.dropWhile Char.isWhitespace).reverse.dropWhile Char.isWhitespace).reverse⟩

/-- main.py `search_images` (lines 559-662): strip and bound the query,
validate `k` (after defaulting) and the optional roi, then run the core
search.  Failures of the embedding or the store query map to a 500 in the
source; no claim concerns them, so the store reply is taken from `env`. -/
def search_images (req : SearchRequest) (env : SearchEnv) : SearchResponse × List ℤ :=
  let q := pyStrip req.query
  if q = "" then (.validationError "query is required", [])
  else if q.length > 500 then (.validationError "query too long (max 500 characters)", [])
  else
    match validate_k (kWithDefault req.k) with
    | .error m => (.validationError m, [])
    | .ok k =>
      match req.roi with
      | some r =>
        match validate_bounds r with
        | .error m => (.validationError m, [])
        | .ok _ => searchCore q k (some r) env
      | none => searchCore q k none env

/-- The ROI box property asserted by the specification for every returned
result: a present center lying inside the inclusive box. -/
def inRoiBox (r : Bounds) (res : SearchResult) : Bool :=
  match res.center_lat, res.center_lon with
  | some lat, some lon =>
      decide (r.south ≤ lat ∧ lat ≤ r.north ∧ r.west ≤ lon ∧ lon ≤ r.east)
  | _, _ => false

/- Concrete requests, environments and store contents used to instantiate
the theorems below on closed inputs. -/

/-- A stand-in for the SHA-256-hexdigest-prefix digest on concrete runs. -/
def sha16 : String → String := fun _ => "h16"

def cBounds : Bounds := { west := -78, south := 18, east := -77, north := 19 }

def okReq : IndexRequest :=
  { image_id := "t1", tile_url := "https://noaa.gov/a.png", thumb_url := none,
    bounds := cBounds, timestamp := none, extra_metadata := [] }

/-- All collaborator calls succeed and the URL is new. -/
def okEnv : IndexEnv :=
  { dupQuery := .ok none, download := .ok (), firestoreSet := .ok (),
    chromaUpsert := .ok (), rollbackFsDelete := .ok (),
    rollbackChromaDelete := .ok (), indexed_at := "T0" }

/-- The Chroma upsert raises after the Firestore write succeeded, and the
rollback's own Firestore delete raises as well. -/
def rollbackEnv : IndexEnv :=
  { dupQuery := .ok none, download := .ok (), firestoreSet := .ok (),
    chromaUpsert := .error "chroma down", rollbackFsDelete := .error "firestore down too",
    rollbackChromaDelete := .ok (), indexed_at := "T0" }

/-- The url_hash lookup finds an existing record owned by `t1`. -/
def dupEnv : IndexEnv :=
  { dupQuery := .ok (some "t1"), download := .ok (), firestoreSet := .ok (),
    chromaUpsert := .ok (), rollbackFsDelete := .ok (),
    rollbackChromaDelete := .ok (), indexed_at := "T0" }

def dupReq : IndexRequest :=
  { image_id := "t2", tile_url := "https://noaa.gov/a.png", thumb_url := none,
    bounds := cBounds, timestamp := none, extra_metadata := [] }

def cRoi : Bounds := { west := -80, south := 10, east := -70, north := 20 }

def hitInside : ChromaHit :=
  { image_id := some "a", tile_url := some "https://noaa.gov/a.png",
    thumb_url := none, center_lat := some 18, center_lon := some (-77),
    west := some (-78), south := some 17, east := some (-76), north := some 19,
    timestamp := none, distance := 0 }

def hitOutside : ChromaHit :=
  { image_id := some "b", tile_url := some "https://noaa.gov/b.png",
    thumb_url := none, center_lat := some 40, center_lon := some 0,
    west := some (-1), south := some 39, east := some 1, north := some 41,
    timestamp := none, distance := 1 }

def sEnv : SearchEnv := { queryResult := [hitInside, hitOutside] }

def sReqRoi : SearchRequest :=
  { query := "flooded roads", k := some (.intVal 5), roi := some cRoi }

def sReqPlain : SearchRequest :=
  { query := "flooded roads", k := none, roi := none }

/-! Helper lemmas. -/

lemma find?_map_update (d : Dict) (k : String) (v : Value)
    (h : d.any (fun p => p.1 == k) = true) :
    (d.map (fun p => if p.1 == k then (k, v) else p)).find? (fun p => p.1 == k)
      = some (k, v) := by
  induction d with
  | nil => simp at h
  | cons p tl ih =>
    by_cases hp : (p.1 == k) = true
    · simp only [List.map_cons, hp, if_true]
      exact List.find?_cons_of_pos _ (by simp)
    · simp only [List.map_cons, hp, if_false, Bool.false_eq_true]
      rw [List.find?_cons_of_neg _ (by simpa using hp)]
      apply ih
      simp only [List.any_cons, hp, Bool.false_or] at h
      exact h

lemma dictGet_dictSet_self (d : Dict) (k : String) (v : Value) :
    dictGet (dictSet d k v) k = some v := by
  unfold dictSet dictGet
  by_cases h : d.any (fun p => p.1 == k) = true
  · rw [if_pos h, find?_map_update d k v h]
    rfl
  · rw [if_neg h, List.find?_append]
    have hn : d.find? (fun p => p.1 == k) = none := by
      rw [List.find?_eq_none]
      intro x hx hpx
      exact h (List.any_eq_true.mpr ⟨x, hx, hpx⟩)
    rw [hn]
    simp [List.find?]

lemma roiAdmits_inRoiBox (r : Bounds) (h : ChromaHit)
    (ha : roiAdmits r h = true) : inRoiBox r (mkResult h) = true := by
  unfold roiAdmits at ha
  unfold inRoiBox mkResult
  cases hlat : h.center_lat with
  | none => rw [hlat] at ha; cases ha
  | some lat =>
    cases hlon : h.center_lon with
    | none => rw [hlat, hlon] at ha; cases ha
    | some lon =>
      rw [hlat, hlon] at ha
      simp only [Bool.and_eq_true, decide_eq_true_eq] at ha
      simp only [decide_eq_true_eq]
      tauto

lemma collectHits_mem_box (r : Bounds) (k : Nat) :
    ∀ (l : List ChromaHit) (acc : Nat) (x : SearchResult),
      x ∈ collectHits (some r) k acc l → inRoiBox r x = true := by
  intro l
  induction l with
  | nil => intro acc x hx; simp [collectHits] at hx
  | cons h rest ih =>
    intro acc x hx
    simp only [collectHits] at hx
    by_cases ha : hitAdmitted (some r) h = true
    · have har : roiAdmits r h = true := ha
      simp only [ha, if_true] at hx
      by_cases hk : k ≤ acc + 1
      · simp only [if_pos hk, List.mem_singleton] at hx
        subst hx
        exact roiAdmits_inRoiBox r h har
      · simp only [if_neg hk, List.mem_cons] at hx
        rcases hx with hx | hx
        · subst hx; exact roiAdmits_inRoiBox r h har
        · exact ih (acc + 1) x hx
    · simp only [Bool.not_eq_true] at ha
      simp only [ha, Bool.false_eq_true, if_false] at hx
      exact ih acc x hx

lemma collectHits_length (roi : Option Bounds) (k : Nat) :
    ∀ (l : List ChromaHit) (acc : Nat), acc < k →
      (collectHits roi k acc l).length + acc ≤ k := by
  intro l
  induction l with
  | nil => intro acc hacc; simp [collectHits]; omega
  | cons h rest ih =>
    intro acc hacc
    simp only [collectHits]
    by_cases ha : hitAdmitted roi h = true
    · simp only [ha, if_true]
      by_cases hk : k ≤ acc + 1
      · simp only [if_pos hk, List.length_singleton]
        omega
      · simp only [if_neg hk, List.length_cons]
        have := ih (acc + 1) (by omega)
        omega
    · simp only [Bool.not_eq_true] at ha
      simp only [ha, Bool.false_eq_true, if_false]
      exact ih acc hacc

lemma collectHits_sublist (roi : Option Bounds) (k : Nat) :
    ∀ (l : List ChromaHit) (acc : Nat),
      ∃ w, List.Sublist w l ∧ collectHits roi k acc l = w.map mkResult := by
  intro l
  induction l with
  | nil => intro acc; exact ⟨[], List.Sublist.refl _, rfl⟩
  | cons h rest ih =>
    intro acc
    by_cases ha : hitAdmitted roi h = true
    · by_cases hk : k ≤ acc + 1
      · refine ⟨[h], (List.nil_sublist rest).cons₂ h, ?_⟩
        simp only [collectHits, ha, if_true, if_pos hk, List.map_cons, List.map_nil]
      · obtain ⟨w, hw, he⟩ := ih (acc + 1)
        refine ⟨h :: w, hw.cons₂ h, ?_⟩
        simp only [collectHits, ha, if_true, if_neg hk, List.map_cons]
        rw [he]
    · obtain ⟨w, hw, he⟩ := ih acc
      refine ⟨w, hw.cons h, ?_⟩
      simp only [Bool.not_eq_true] at ha
      simp only [collectHits, ha, Bool.false_eq_true, if_false]
      exact he

lemma validate_k_ok_iff (kv : KValue) (n : ℤ) :
    validate_k kv = .ok n ↔ kv = .intVal n ∧ 1 ≤ n ∧ n ≤ Config.MAX_RESULTS := by
  cases kv with
  | notInt => simp [validate_k]
  | intVal m =>
    simp only [validate_k, KValue.intVal.injEq]
    split_ifs with h1 h2
    · simp only [false_iff, not_and]
      intro hm; subst hm; omega
    · simp only [false_iff, not_and]
      intro hm; subst hm
      simp only [Config.MAX_RESULTS] at h2 ⊢
      omega
    · constructor
      · intro he
        cases he
        refine ⟨rfl, by omega, by omega⟩
      · intro ⟨hm, _, _⟩
        subst hm
        rfl

lemma search_inv (req : SearchRequest) (env : SearchEnv)
    (q : String) (results : List SearchResult) (cnt : Nat) (kreq : ℤ)
    (h : (search_images req env).1 = .ok q results cnt kreq) :
    validate_k (kWithDefault req.k) = .ok kreq ∧
    q = pyStrip req.query ∧
    results = collectHits req.roi kreq.toNat 0 env.queryResult ∧
    cnt = results.length ∧
    (search_images req env).2 = [fetch_count kreq req.roi.isSome] := by
  have main : validate_k (kWithDefault req.k) = .ok kreq ∧
      search_images req env = searchCore (pyStrip req.query) kreq req.roi env := by
    simp only [search_images] at h
    split_ifs at h with h1 h2
    split at h
    · simp at h
    · rename_i k hk
      have hkreq : k = kreq := by
        split at h
        · rename_i r hr
          split at h
          · simp at h
          · simp only [searchCore, SearchResponse.ok.injEq] at h
            exact h.2.2.2
        · simp only [searchCore, SearchResponse.ok.injEq] at h
          exact h.2.2.2
      subst hkreq
      refine ⟨hk, ?_⟩
      simp only [search_images, if_neg h1, if_neg h2, hk]
      split at h
      · rename_i r hr
        split at h
        · simp at h
        · rw [hr]
      · rename_i hr
        rw [hr]
  obtain ⟨hk, heq⟩ := main
  have h2 := h
  rw [heq] at h2
  simp only [searchCore, SearchResponse.ok.injEq] at h2
  obtain ⟨hq, hres, hcnt, _⟩ := h2
  refine ⟨hk, hq.symm, hres.symm, ?_, ?_⟩
  · rw [← hcnt, ← hres]
  · rw [heq]
    simp [searchCore]

lemma sReqRoi_run : (search_images sReqRoi sEnv).1
    = .ok "flooded roads" [mkResult hitInside] 1 5 := rfl

lemma sReqPlain_run : (search_images sReqPlain sEnv).1
    = .ok "flooded roads" [mkResult hitInside, mkResult hitOutside] 2 10 := rfl

/-! Claim theorems. -/

/-- C1: when the metadata-store write succeeds and the subsequent
vector-store upsert fails, `index_tile` issues a compensating delete of the
metadata record (`fsDelete` appears in the call trace) and surfaces the
original vector-store failure to the caller; the outcome of both rollback
deletes is swallowed inside `rollback_index`, so for every outcome of the
compensating deletes the response still carries the original error. -/
theorem C1_partial_write_rollback (req : IndexRequest) (env : IndexEnv)
    (uh : String → String) (e : String)
    (hval : validations req = .ok ())
    (hdup : check_duplicate_url env.dupQuery = none ∨
            check_duplicate_url env.dupQuery = some req.image_id)
    (hdl : env.download = .ok ())
    (hfs : env.firestoreSet = .ok ())
    (hch : env.chromaUpsert = .error e) :
    (index_tile req env uh).1 = .serverError ("Failed to index tile: " ++ e) ∧
    Action.fsDelete req.image_id ∈ (index_tile req env uh).2 ∧
    ∀ x y : Except String Unit,
      (index_tile req { env with rollbackFsDelete := x, rollbackChromaDelete := y } uh).1
        = .serverError ("Failed to index tile: " ++ e) := by
  have hmain : ∀ r1 r2 : Except String Unit,
      index_main req uh env.download env.firestoreSet env.chromaUpsert r1 r2 env.indexed_at
        = (.serverError ("Failed to index tile: " ++ e),
           [.fsDupQuery, .downloadImage req.tile_url, .encodeImage,
            .fsSet req.image_id (assembleMeta req.image_id req.tile_url req.thumb_url
              (uh req.tile_url) req.bounds
              ((req.bounds.south + req.bounds.north) / 2)
              ((req.bounds.west + req.bounds.east) / 2)
              req.timestamp env.indexed_at req.extra_metadata),
            .chromaUpsert req.image_id]
             ++ rollback_index req.image_id r1 r2) := by
    intro r1 r2
    rw [hdl, hfs, hch]
    rfl
  have hout : ∀ x y : Except String Unit,
      index_tile req { env with rollbackFsDelete := x, rollbackChromaDelete := y } uh
        = index_main req uh env.download env.firestoreSet env.chromaUpsert x y env.indexed_at := by
    intro x y
    rcases hdup with h | h
    · cases hq : env.dupQuery with
      | ok r =>
        simp only [check_duplicate_url, hq] at h
        subst h
        simp [index_tile, check_duplicate_url, hval, hq]
      | error m =>
        simp [index_tile, check_duplicate_url, hval, hq]
    · cases hq : env.dupQuery with
      | ok r =>
        simp only [check_duplicate_url, hq] at h
        subst h
        simp [index_tile, check_duplicate_url, hval, hq]
      | error m =>
        simp only [check_duplicate_url, hq] at h
        cases h
  have hself : index_tile req env uh
      = index_main req uh env.download env.firestoreSet env.chromaUpsert
          env.rollbackFsDelete env.rollbackChromaDelete env.indexed_at :=
    hout env.rollbackFsDelete env.rollbackChromaDelete
  refine ⟨?_, ?_, ?_⟩
  · rw [hself, hmain]
  · rw [hself, hmain]
    cases env.rollbackFsDelete <;> cases env.rollbackChromaDelete <;>
      simp [rollback_index]
  · intro x y
    rw [hout x y, hmain x y]

/-- C1 witness: a concrete run in which the Chroma upsert raises
"chroma down" after the Firestore write succeeded and the rollback's own
Firestore delete raises too; the response still surfaces "chroma down" and
the trace holds the compensating delete. -/
theorem C1_partial_write_rollback_witness :
    (index_tile okReq rollbackEnv sha16).1
        = .serverError ("Failed to index tile: " ++ "chroma down") ∧
    Action.fsDelete "t1" ∈ (index_tile okReq rollbackEnv sha16).2 := by
  have h := C1_partial_write_rollback okReq rollbackEnv sha16 "chroma down"
    rfl (Or.inl rfl) rfl rfl rfl
  exact ⟨h.1, h.2.1⟩

/-- C2: when the duplicate-URL lookup finds an existing record whose id
differs from the request's, `index_tile` returns the duplicate warning
naming the existing id with HTTP status 200 (a success-with-caveat, not an
error), and the call trace holds only the lookup itself: no store mutation,
no image download, no embedding. -/
theorem C2_duplicate_url_warning (req : IndexRequest) (env : IndexEnv)
    (uh : String → String) (ex : String)
    (hval : validations req = .ok ())
    (hdup : check_duplicate_url env.dupQuery = some ex)
    (hne : ex ≠ req.image_id) :
    index_tile req env uh = (.duplicateWarning ex, [Action.fsDupQuery]) ∧
    indexStatus (index_tile req env uh).1 = 200 := by
  have h : index_tile req env uh = (.duplicateWarning ex, [Action.fsDupQuery]) := by
    rw [index_tile, hval, hdup]
    simp [hne]
  exact ⟨h, by rw [h]; rfl⟩

/-- C2 witness: indexing `t2` with a URL already owned by `t1` yields the
duplicate warning naming `t1` and a trace holding only the lookup. -/
theorem C2_duplicate_url_warning_witness :
    index_tile dupReq dupEnv sha16 = (.duplicateWarning "t1", [Action.fsDupQuery]) ∧
    indexStatus (index_tile dupReq dupEnv sha16).1 = 200 :=
  C2_duplicate_url_warning dupReq dupEnv sha16 "t1" rfl rfl (by decide)

/-- C3 counterexample: the metadata dict of lines 520-534 spreads the
caller's `extra_metadata` after the reserved bindings, so a caller binding
for the reserved key `center_lat` overrides the derived midpoint in the
stored record — the reserved value does not win. -/
theorem C3_reserved_keys_counterexample :
    dictGet
      (assembleMeta "t1" "https://noaa.gov/a.png" none "h16" cBounds
        (((18 : ℚ) + 19) / 2) (((-78 : ℚ) + -77) / 2) none "T0"
        [("center_lat", Value.num 999)])
      "center_lat" = some (Value.num 999) ∧
    Value.num 999 ≠ Value.num (((18 : ℚ) + 19) / 2) := by
  constructor
  · rfl
  · simp only [ne_eq, Value.num.injEq]
    norm_num

/-- C3 amended: caller metadata is spread into the record literal after the
derived/reserved bindings, so on any key collision the caller-supplied value
silently overrides the reserved one in the assembled Tile Record. -/
theorem C3_caller_metadata_overrides (image_id tile_url : String)
    (thumb : Option String) (uh : String) (b : Bounds) (clat clon : ℚ)
    (ts : Option String) (iat : String) (key : String) (v : Value) :
    dictGet (assembleMeta image_id tile_url thumb uh b clat clon ts iat [(key, v)]) key
      = some v := by
  unfold assembleMeta dictMerge
  simp only [List.foldl_cons, List.foldl_nil]
  exact dictGet_dictSet_self _ key v

/-- C8: every successful indexing response reports the arithmetic midpoint
of the request's bounds as the center. -/
theorem C8_center_midpoint (req : IndexRequest) (env : IndexEnv)
    (uh : String → String) (id : String) (clat clon : ℚ)
    (h : (index_tile req env uh).1 = .indexed id clat clon) :
    clat = (req.bounds.south + req.bounds.north) / 2 ∧
    clon = (req.bounds.west + req.bounds.east) / 2 := by
  rw [index_tile] at h
  split at h
  · simp at h
  · split at h
    · split at h
      · simp at h
      · rw [index_main.eq_def] at h
        split at h
        · simp at h
        · split at h
          · simp at h
          · split at h <;> simp_all
    · rw [index_main.eq_def] at h
      split at h
      · simp at h
      · split at h
        · simp at h
        · split at h <;> simp_all

/-- C8 witness: indexing bounds west -78, south 18, east -77, north 19
succeeds and reports center ((18 + 19)/2, (-78 + -77)/2). -/
theorem C8_center_midpoint_witness :
    ((18 : ℚ) + 19) / 2 = (okReq.bounds.south + okReq.bounds.north) / 2 ∧
    ((-78 : ℚ) + -77) / 2 = (okReq.bounds.west + okReq.bounds.east) / 2 :=
  C8_center_midpoint okReq okEnv sha16 "t1"
    (((18 : ℚ) + 19) / 2) (((-78 : ℚ) + -77) / 2) rfl

/-- C10: an exception raised by the metadata-store query inside
`check_duplicate_url` is caught and reported as "no match", and the whole
indexing run then behaves exactly as if the lookup had found nothing — the
uniqueness check is silently skipped rather than failing the request. -/
theorem C10_dup_check_exception_swallowed (req : IndexRequest) (env : IndexEnv)
    (uh : String → String) (e : String) :
    check_duplicate_url (.error e) = none ∧
    index_tile req { env with dupQuery := .error e } uh
      = index_tile req { env with dupQuery := .ok none } uh :=
  ⟨rfl, rfl⟩

/-- C4: when an roi is supplied, every result of a successful search has a
present center lying inside the inclusive ROI box. -/
theorem C4_roi_filter_inclusive (req : SearchRequest) (env : SearchEnv)
    (r : Bounds) (q : String) (results : List SearchResult) (cnt : Nat) (kreq : ℤ)
    (hroi : req.roi = some r)
    (h : (search_images req env).1 = .ok q results cnt kreq) :
    ∀ x ∈ results, inRoiBox r x = true := by
  obtain ⟨_, _, hres, _, _⟩ := search_inv req env q results cnt kreq h
  rw [hroi] at hres
  intro x hx
  rw [hres] at hx
  exact collectHits_mem_box r kreq.toNat env.queryResult 0 x hx

/-- C4 witness: a concrete ROI search returning exactly the in-box hit,
whose center the theorem places inside the box. -/
theorem C4_roi_filter_inclusive_witness : inRoiBox cRoi (mkResult hitInside) = true :=
  C4_roi_filter_inclusive sReqRoi sEnv cRoi "flooded roads" [mkResult hitInside] 1 5
    rfl sReqRoi_run (mkResult hitInside) (List.mem_singleton.mpr rfl)

/-- C5: every successful search returns at most min(k, MAX_RESULTS) results,
and the reported count always equals the actual (possibly shorter than k)
result-list length of the same success response — an under-filled result
set is still delivered through the success shape, never as an error. -/
theorem C5_result_count_bound (req : SearchRequest) (env : SearchEnv)
    (q : String) (results : List SearchResult) (cnt : Nat) (kreq : ℤ)
    (h : (search_images req env).1 = .ok q results cnt kreq) :
    (results.length : ℤ) ≤ min kreq Config.MAX_RESULTS ∧ cnt = results.length := by
  obtain ⟨hk, _, hres, hcnt, _⟩ := search_inv req env q results cnt kreq h
  rw [validate_k_ok_iff] at hk
  obtain ⟨_, hk1, hk2⟩ := hk
  have hlen : results.length + 0 ≤ kreq.toNat := by
    rw [hres]
    exact collectHits_length req.roi kreq.toNat env.queryResult 0 (by omega)
  simp only [Config.MAX_RESULTS] at hk2 ⊢
  exact ⟨by omega, hcnt⟩

/-- C5 witness: the concrete ROI search requested k = 5 but returns a single
result, as a success with count 1. -/
theorem C5_result_count_bound_witness :
    (([mkResult hitInside] : List SearchResult).length : ℤ) ≤ min 5 Config.MAX_RESULTS ∧
    1 = ([mkResult hitInside] : List SearchResult).length :=
  C5_result_count_bound sReqRoi sEnv "flooded roads" [mkResult hitInside] 1 5 sReqRoi_run

/-- C6: in every successful search response, each result satisfies
`similarity = 1 - distance` exactly, and whenever the vector store's hits
arrive in non-decreasing distance order, the returned results preserve that
order (they are a filtered sublist, never re-ranked). -/
theorem C6_similarity_and_order (req : SearchRequest) (env : SearchEnv)
    (q : String) (results : List SearchResult) (cnt : Nat) (kreq : ℤ)
    (h : (search_images req env).1 = .ok q results cnt kreq) :
    (∀ x ∈ results, x.similarity = 1 - x.distance) ∧
    (List.Pairwise (fun a b => a.distance ≤ b.distance) env.queryResult →
      List.Pairwise (fun a b : SearchResult => a.distance ≤ b.distance) results) := by
  obtain ⟨_, _, hres, _, _⟩ := search_inv req env q results cnt kreq h
  obtain ⟨w, hw, he⟩ := collectHits_sublist req.roi kreq.toNat env.queryResult 0
  rw [he] at hres
  constructor
  · intro x hx
    rw [hres] at hx
    obtain ⟨a, _, ha⟩ := List.mem_map.mp hx
    rw [← ha]
    rfl
  · intro hp
    rw [hres, List.pairwise_map]
    exact (hp.sublist hw).imp (fun hab => hab)

/-- C6 witness: on the concrete no-roi search, the first result satisfies
`similarity = 1 - distance` and the two returned results keep the store's
ascending-distance order. -/
theorem C6_similarity_and_order_witness :
    (mkResult hitInside).similarity = 1 - (mkResult hitInside).distance ∧
    List.Pairwise (fun a b : SearchResult => a.distance ≤ b.distance)
      [mkResult hitInside, mkResult hitOutside] := by
  have h := C6_similarity_and_order sReqPlain sEnv "flooded roads"
    [mkResult hitInside, mkResult hitOutside] 2 10 sReqPlain_run
  refine ⟨h.1 (mkResult hitInside) (by simp), h.2 ?_⟩
  simp only [sEnv, List.pairwise_cons, List.mem_singleton, List.not_mem_nil,
    false_implies, implies_true, and_true, List.Pairwise.nil]
  intro b hb
  subst hb
  show (0 : ℚ) ≤ 1
  norm_num

/-- C7: every successful search requested exactly one nearest-neighbor
batch from the vector store, of width min(k × ROI_MULTIPLIER, MAX_RESULTS)
when an roi was supplied, and exactly k (the cap being vacuous since
k ≤ MAX_RESULTS) when it was not. -/
theorem C7_fetch_width (req : SearchRequest) (env : SearchEnv)
    (q : String) (results : List SearchResult) (cnt : Nat) (kreq : ℤ)
    (h : (search_images req env).1 = .ok q results cnt kreq) :
    (search_images req env).2 = [fetch_count kreq req.roi.isSome] ∧
    fetch_count kreq req.roi.isSome
      = min (if req.roi.isSome then kreq * Config.ROI_MULTIPLIER else kreq)
          Config.MAX_RESULTS ∧
    (req.roi = none → (search_images req env).2 = [kreq]) := by
  obtain ⟨hk, _, _, _, hfc⟩ := search_inv req env q results cnt kreq h
  rw [validate_k_ok_iff] at hk
  obtain ⟨_, hk1, hk2⟩ := hk
  refine ⟨hfc, rfl, ?_⟩
  intro hnone
  rw [hfc, hnone]
  simp only [Option.isSome_none, fetch_count, if_neg (by simp : ¬(false = true))]
  congr 1
  simp only [Config.MAX_RESULTS] at hk2 ⊢
  omega

/-- C7 witness: the concrete ROI search with k = 5 requests one batch of
width fetch_count 5 true = min(5 × 3, 100) from the store. -/
theorem C7_fetch_width_witness :
    (search_images sReqRoi sEnv).2 = [fetch_count 5 (sReqRoi.roi).isSome] ∧
    fetch_count 5 (sReqRoi.roi).isSome
      = min (if (sReqRoi.roi).isSome then 5 * Config.ROI_MULTIPLIER else 5)
          Config.MAX_RESULTS :=
  ⟨(C7_fetch_width sReqRoi sEnv "flooded roads" [mkResult hitInside] 1 5 sReqRoi_run).1,
   (C7_fetch_width sReqRoi sEnv "flooded roads" [mkResult hitInside] 1 5 sReqRoi_run).2.1⟩

/-- C9: `validate_k` accepts exactly the integers in [1, MAX_RESULTS]
(non-integers and out-of-range values are rejected), and the k actually
used by every successful search lies in [1, MAX_RESULTS], equaling
DEFAULT_K when the request omitted k. -/
theorem C9_k_validation :
    (∀ (kv : KValue) (n : ℤ),
      validate_k kv = .ok n ↔ kv = .intVal n ∧ 1 ≤ n ∧ n ≤ Config.MAX_RESULTS) ∧
    (∀ (req : SearchRequest) (env : SearchEnv) (q : String)
        (results : List SearchResult) (cnt : Nat) (kreq : ℤ),
      (search_images req env).1 = .ok q results cnt kreq →
        1 ≤ kreq ∧ kreq ≤ Config.MAX_RESULTS ∧
        (req.k = none → kreq = Config.DEFAULT_K)) := by
  refine ⟨validate_k_ok_iff, ?_⟩
  intro req env q results cnt kreq h
  obtain ⟨hk, _, _, _, _⟩ := search_inv req env q results cnt kreq h
  rw [validate_k_ok_iff] at hk
  obtain ⟨hkv, hk1, hk2⟩ := hk
  refine ⟨hk1, hk2, ?_⟩
  intro habs
  rw [habs] at hkv
  simp only [kWithDefault, KValue.intVal.injEq] at hkv
  omega

/-- C9 witness: validate_k accepts 5, and the concrete search that omitted
k runs with kreq = 10 = DEFAULT_K, inside [1, MAX_RESULTS]. -/
theorem C9_k_validation_witness :
    (validate_k (.intVal 5) = .ok 5 ↔
      KValue.intVal 5 = .intVal 5 ∧ 1 ≤ (5 : ℤ) ∧ (5 : ℤ) ≤ Config.MAX_RESULTS) ∧
    (1 ≤ (10 : ℤ) ∧ (10 : ℤ) ≤ Config.MAX_RESULTS ∧
      (sReqPlain.k = none → (10 : ℤ) = Config.DEFAULT_K)) :=
  ⟨C9_k_validation.1 (.intVal 5) 5,
   C9_k_validation.2 sReqPlain sEnv "flooded roads"
     [mkResult hitInside, mkResult hitOutside] 2 10 sReqPlain_run⟩

end CrisisMap
